import Mathlib

/-!
Verification development for the Cell_Image_Analyzer repository.

The file embeds, as executable Lean definitions, the file-import tab of the
Input workspace (`src/gui/workspaces/input_tabs/file_import_tab.py`), the
JSON-backed settings store (`src/utils/settings.py`) and the sidebar
navigation button (`src/gui/components/nav_button.py`), and proves the
spec's claims about them.

Modelling conventions:
- the OS filesystem seen by the program is a value of the `FSys` structure
  (directory test, directory listing, regular-file test); a `PermissionError`
  raised by `os.listdir` is `listdir = none`;
- Python strings are Lean `String`s; `str.lower` is modelled character by
  character with `Char.toLower` (ASCII case mapping, which is what the
  file names and extensions involved use), and Python string comparison is
  code-point lexicographic comparison;
- settings values are modelled as strings, the only value type the
  application stores (`last_directory`); the settings file on disk is a
  `SettingsFileState` (missing, unreadable/undecodable, or a parsed map);
- Qt signal emissions are modelled as returned values.
-/

/-- Filesystem as seen by the program: `os.path.isdir`, `os.listdir`
(`none` models a raised `PermissionError`), `os.path.isfile`. -/
structure FSys where
  isdir : String → Bool
  listdir : String → Option (List String)
  isfile : String → Bool

/-- Python `str.lower` (ASCII case mapping), applied character by character. -/
def py_lower (s : String) : String := ⟨s.data.map Char.toLower⟩

/-- Python string `<=` on the underlying character lists: code-point
lexicographic comparison. -/
def py_str_le : List Char → List Char → Bool
  | [], _ => true
  | _ :: _, [] => false
  | a :: as, b :: bs =>
    if a.toNat < b.toNat then true
    else if b.toNat < a.toNat then false
    else py_str_le as bs

/-- Comparison used by `files.sort(key=str.lower)`: compare names by their
lowercased forms. -/
def lower_le (a b : String) : Bool := py_str_le (py_lower a).data (py_lower b).data

/-- The sort order of `files.sort(key=str.lower)` as a relation. -/
def lower_rel (a b : String) : Prop := lower_le a b = true

instance : DecidableRel lower_rel := fun a b =>
  inferInstanceAs (Decidable (lower_le a b = true))

/-- Helper for `splitext_ext`: on a REVERSED character list, split at the
first dot (the last dot of the original string), returning the reversed
extension (dot included) and the reversed stem. -/
def split_rev_at_dot : List Char → Option (List Char × List Char)
  | [] => none
  | c :: rest =>
    if c = '.' then some ([c], rest)
    else
      match split_rev_at_dot rest with
      | some (pre, post) => some (c :: pre, post)
      | none => none

/-- Extension part of `os.path.splitext(filename)[1]` for a bare file name
(no path separators, as returned by `os.listdir`): the suffix starting at
the last dot, unless every character before that dot is itself a dot
(so ".bashrc" and ".." have extension ""). -/
def splitext_ext (s : String) : String :=
  match split_rev_at_dot s.data.reverse with
  | some (extRev, stemRev) =>
      if stemRev.any (fun c => c != '.') then ⟨extRev.reverse⟩ else ""
  | none => ""

/-- Whether a string starts with the POSIX path separator. -/
def starts_with_sep (f : String) : Bool :=
  match f.data with
  | [] => false
  | c :: _ => c = '/'

/-- Whether a string ends with the POSIX path separator. -/
def ends_with_sep (d : String) : Bool :=
  match d.data.getLast? with
  | some c => c = '/'
  | none => false

/-- POSIX `os.path.join(d, f)` for the two-argument case used in the code. -/
def path_join (d f : String) : String :=
  if starts_with_sep f then f
  else if d = "" || ends_with_sep d then d ++ f
  else d ++ "/" ++ f

/-- `FileImportTab.FILE_FORMATS`: the hard-coded (label, extensions) pairs. -/
def FILE_FORMATS : List (String × List String) :=
  [("TIFF Images", [".tif", ".tiff"]),
   ("PNG Images", [".png"]),
   ("JPEG Images", [".jpg", ".jpeg"]),
   ("ND2 Images", [".nd2"]),
   ("All Supported", [".tif", ".tiff", ".png", ".jpg", ".jpeg", ".nd2"])]

/-- `FileImportTab._get_current_extensions`: extensions of the combo-box
index, `[]` when the index is out of range. -/
def get_current_extensions (index : Int) : List String :=
  if 0 ≤ index ∧ index < (FILE_FORMATS.length : Int) then
    (FILE_FORMATS.getD index.toNat ("", [])).2
  else []

/-- `FileImportTab._refresh_file_list`: clear the list; if the current
directory is not a directory, stop; otherwise list it (a `PermissionError`
is caught, leaving the list empty), keep regular files whose lowercased
extension is in the active extensions, sort case-insensitively, and add
each as an unchecked item. Python's `list.sort` is a stable sort; it is
modelled by the stable `insertionSort`, which computes the same list for
this total preorder. -/
def refresh_file_list (fs : FSys) (dir : String) (extensions : List String) :
    List (String × Bool) :=
  if fs.isdir dir then
    match fs.listdir dir with
    | some entries =>
        let files := entries.filter (fun fn =>
          fs.isfile (path_join dir fn) && extensions.contains (py_lower (splitext_ext fn)))
        let sorted := files.insertionSort lower_rel
        sorted.map (fun fn => (fn, false))
    | none => []
  else []

/-- `FileImportTab._get_selected_count`: count of checked items. -/
def get_selected_count : List (String × Bool) → Nat
  | [] => 0
  | p :: rest => (if p.2 then 1 else 0) + get_selected_count rest

/-- `FileImportTab.get_selected_files`: the loop appending, for each checked
item in display order, the current directory joined with the item text. -/
def get_selected_files (dir : String) : List (String × Bool) → List String
  | [] => []
  | p :: rest =>
      if p.2 then path_join dir p.1 :: get_selected_files dir rest
      else get_selected_files dir rest

/-- `FileImportTab._emit_selection_changed`: the payload of the
`files_selected` signal is the value of `get_selected_files`. -/
def emit_selection_changed (dir : String) (items : List (String × Bool)) :
    List String :=
  get_selected_files dir items

/-- UI state of the file-import tab: current directory, combo-box index and
the checkable list items (name, checked). -/
structure TabState where
  current_directory : String
  format_index : Int
  items : List (String × Bool)
deriving DecidableEq

/-- `FileImportTab._on_format_changed` (Qt updates the combo index before
the signal fires): refresh the list under the new filter. Returns the new
state. -/
def on_format_changed (fs : FSys) (st : TabState) (index : Int) : TabState :=
  { st with
    format_index := index
    items := refresh_file_list fs st.current_directory (get_current_extensions index) }

/-- `FileImportTab._on_browse_clicked` after the dialog returned `dir`
(Python: `if directory:` — the empty string, a cancelled dialog, changes
nothing). Returns the new state. Persisting the directory to settings is
modelled separately (`settings_set`). -/
def on_browse_selected (fs : FSys) (st : TabState) (dir : String) : TabState :=
  if dir ≠ "" then
    { st with
      current_directory := dir
      items := refresh_file_list fs dir (get_current_extensions st.format_index) }
  else st

/-- `FileImportTab._on_select_all`: check every item, then recompute the
count and emit the selection. Returns (new state, count, emitted list). -/
def on_select_all (st : TabState) : TabState × Nat × List String :=
  let st2 := { st with items := st.items.map (fun p => (p.1, true)) }
  (st2, get_selected_count st2.items,
    emit_selection_changed st2.current_directory st2.items)

/-- `FileImportTab._on_clear_all`: uncheck every item, then recompute the
count and emit the selection. Returns (new state, count, emitted list). -/
def on_clear_all (st : TabState) : TabState × Nat × List String :=
  let st2 := { st with items := st.items.map (fun p => (p.1, false)) }
  (st2, get_selected_count st2.items,
    emit_selection_changed st2.current_directory st2.items)

/-- Checkbox toggle on item `i` to state `b` (Qt applies the new check
state before `itemChanged` fires). -/
def set_item_checked (items : List (String × Bool)) (i : Nat) (b : Bool) :
    List (String × Bool) :=
  items.set i ((items.getD i ("", false)).1, b)

/-- `FileImportTab._on_item_changed`: recompute the count and emit the
current selection. Returns (count, emitted list). -/
def on_item_changed (st : TabState) : Nat × List String :=
  (get_selected_count st.items,
    emit_selection_changed st.current_directory st.items)

/-- Settings mapping: string keys to the string values the application
stores (the only key used is `last_directory`). Insertion-ordered
association list, mirroring a Python dict. -/
abbrev SettingsMap := List (String × String)

/-- State of the settings file on disk as `_load_settings` finds it:
absent, present but unreadable or not valid JSON, or a parsed mapping. -/
inductive SettingsFileState where
  | missing : SettingsFileState
  | malformed : SettingsFileState
  | valid : SettingsMap → SettingsFileState
deriving DecidableEq

/-- `Settings._load_settings`: if the file exists, parse it, and on
`JSONDecodeError` or `IOError` fall back to `{}`; if it does not exist,
`{}`. Total: no case raises. -/
def load_settings : SettingsFileState → SettingsMap
  | .missing => []
  | .malformed => []
  | .valid m => m

/-- `Settings.get(key, default)`: Python `dict.get`. -/
def settings_get (m : SettingsMap) (key default : String) : String :=
  (List.lookup key m).getD default

/-- Python `dict.__setitem__` on an insertion-ordered association list:
update in place if the key exists, else append. -/
def dict_set : SettingsMap → String → String → SettingsMap
  | [], k, v => [(k, v)]
  | (k', v') :: rest, k, v =>
      if k' = k then (k, v) :: rest else (k', v') :: dict_set rest k v

/-- Disk-side state for saving: the settings file's parsed content (if
any) and whether opening it for writing raises `IOError`. -/
structure Disk where
  content : Option SettingsMap
  write_fails : Bool
deriving DecidableEq

/-- `Settings._save_settings`: dump the whole mapping to the file; on
`IOError` print a warning and return normally. Returns (new disk state,
printed warnings). -/
def save_settings (d : Disk) (m : SettingsMap) : Disk × List String :=
  if d.write_fails then (d, ["Warning: Could not save settings"])
  else ({ d with content := some m }, [])

/-- `Settings.set(key, value)`: store in the in-memory dict, then save to
file. Returns (new mapping, new disk state, printed warnings). -/
def settings_set (d : Disk) (m : SettingsMap) (key value : String) :
    SettingsMap × Disk × List String :=
  let m2 := dict_set m key value
  let sv := save_settings d m2
  (m2, sv.1, sv.2)

/-- `Settings.get_last_directory`: the stored `last_directory` if it is
truthy (a non-empty string) and `os.path.isdir` holds of it, else the
project root. -/
def get_last_directory (fs : FSys) (project_root : String) (m : SettingsMap) :
    String :=
  match List.lookup "last_directory" m with
  | some last_dir =>
      if last_dir ≠ "" && fs.isdir last_dir then last_dir else project_root
  | none => project_root

/-- Process-wide class state of `Settings`: the `_instance` class
attribute, `none` before the first construction, afterwards the singleton
with its in-memory mapping. -/
structure SettingsClass where
  inst : Option SettingsMap
deriving DecidableEq

/-- `Settings()` = `Settings.__new__` + `Settings.__init__`: if `_instance`
exists, return it (`_initialized` is `True`, so `__init__` returns without
touching anything); otherwise create it, mark it initialized and load the
settings file. Returns (new class state, the returned instance's mapping).
The file state is the one at call time. -/
def Settings_ctor (file : SettingsFileState) (p : SettingsClass) :
    SettingsClass × SettingsMap :=
  match p.inst with
  | some m => (p, m)
  | none =>
      let m := load_settings file
      ({ inst := some m }, m)

/-- `NavButton` state: its workspace id and the `_is_active` flag. -/
structure NavButton where
  workspace_id : String
  active : Bool
deriving DecidableEq

/-- `NavButton._on_clicked`: emit `workspace_selected` with the button's
workspace id unless the button is active. Returns the emitted payloads. -/
def nav_on_clicked (b : NavButton) : List String :=
  if !b.active then [b.workspace_id] else []

/-- `NavButton.set_active`: set `_is_active` (and restyle). -/
def nav_set_active (b : NavButton) (a : Bool) : NavButton :=
  { b with active := a }

/-- Demo filesystem used to instantiate the hypotheses of the claims:
`/imgs` is a directory holding three image files, a text file, a
subdirectory and a dot file; every other path is absent. -/
def fs_demo : FSys where
  isdir := fun s => s == "/imgs"
  listdir := fun s =>
    if s == "/imgs" then
      some ["b.TIF", "a.png", "notes.txt", "sub", "C.tiff", ".tif"]
    else none
  isfile := fun s =>
    s == "/imgs/b.TIF" || s == "/imgs/a.png" || s == "/imgs/notes.txt" ||
      s == "/imgs/C.tiff" || s == "/imgs/.tif"

/-- Demo filesystem on which listing `/locked` raises `PermissionError`. -/
def fs_locked : FSys where
  isdir := fun s => s == "/locked"
  listdir := fun _ => none
  isfile := fun _ => false

/-- The case-insensitive comparison is total. -/
theorem py_str_le_total : ∀ a b : List Char, py_str_le a b = true ∨ py_str_le b a = true := by
  intro a
  induction a with
  | nil => intro b; left; rfl
  | cons x xs ih =>
    intro b
    cases b with
    | nil => right; rfl
    | cons y ys =>
      by_cases h1 : x.toNat < y.toNat
      · left; simp [py_str_le, h1]
      · by_cases h2 : y.toNat < x.toNat
        · right; simp [py_str_le, h1, h2]
        · rcases ih ys with h | h
          · left; simp [py_str_le, h1, h2, h]
          · right; simp [py_str_le, h1, h2, h]

/-- The case-insensitive comparison is transitive. -/
theorem py_str_le_trans : ∀ a b c : List Char,
    py_str_le a b = true → py_str_le b c = true → py_str_le a c = true := by
  intro a
  induction a with
  | nil => intro b c _ _; rfl
  | cons x xs ih =>
    intro b c hab hbc
    cases b with
    | nil => simp [py_str_le] at hab
    | cons y ys =>
      cases c with
      | nil => simp [py_str_le] at hbc
      | cons z zs =>
        simp only [py_str_le] at hab hbc ⊢
        by_cases hxz : x.toNat < z.toNat
        · simp [hxz]
        · by_cases hxy : x.toNat < y.toNat
          · by_cases hyz : y.toNat < z.toNat
            · exact absurd (Nat.lt_trans hxy hyz) hxz
            · by_cases hzy : z.toNat < y.toNat
              · simp [hyz, hzy] at hbc
              · exact absurd (by omega) hxz
          · by_cases hyx : y.toNat < x.toNat
            · simp [hxy, hyx] at hab
            · simp [hxy, hyx] at hab
              by_cases hyz : y.toNat < z.toNat
              · exact absurd (by omega) hxz
              · by_cases hzy : z.toNat < y.toNat
                · simp [hyz, hzy] at hbc
                · simp [hyz, hzy] at hbc
                  have hzx : ¬ z.toNat < x.toNat := by omega
                  simp [hxz, hzx]
                  exact ih ys zs hab hbc

instance : IsTotal String lower_rel := ⟨fun _ _ => py_str_le_total _ _⟩

instance : IsTrans String lower_rel := ⟨fun _ _ _ => py_str_le_trans _ _ _⟩

/-- For a valid, listable directory, `_refresh_file_list` rebuilds the list
as: the filter applied to the raw entries (regular file, lowercased
extension in the active set), stably sorted case-insensitively, each item
unchecked. -/
theorem refresh_file_list_eq (fs : FSys) (dir : String) (exts : List String)
    (entries : List String)
    (h1 : fs.isdir dir = true) (h2 : fs.listdir dir = some entries) :
    refresh_file_list fs dir exts =
      ((entries.filter (fun fn =>
        fs.isfile (path_join dir fn) &&
          exts.contains (py_lower (splitext_ext fn)))).insertionSort
            lower_rel).map (fun fn => (fn, false)) := by
  simp [refresh_file_list, h1, h2]

/-- C1: for every directory listing and every format filter, refreshing the
file list shows exactly the regular files of the current directory whose
lowercased extension is in the active filter's extension set (as a
permutation of the filtered raw listing), sorted case-insensitively by
name. -/
theorem refresh_shows_filtered_sorted (fs : FSys) (dir : String) (index : Int)
    (entries : List String)
    (h1 : fs.isdir dir = true) (h2 : fs.listdir dir = some entries) :
    ((refresh_file_list fs dir (get_current_extensions index)).map Prod.fst).Perm
      (entries.filter (fun fn =>
        fs.isfile (path_join dir fn) &&
          (get_current_extensions index).contains (py_lower (splitext_ext fn)))) ∧
    List.Sorted lower_rel
      ((refresh_file_list fs dir (get_current_extensions index)).map Prod.fst) := by
  rw [refresh_file_list_eq fs dir _ entries h1 h2, List.map_map]
  have hid : (Prod.fst ∘ fun fn => ((fn : String), false)) = id := rfl
  rw [hid, List.map_id]
  exact ⟨List.perm_insertionSort lower_rel _, List.sorted_insertionSort lower_rel _⟩

/-- Witness for C1 on the demo filesystem with the "All Supported" filter. -/
theorem refresh_shows_filtered_sorted_witness :
    ((refresh_file_list fs_demo "/imgs" (get_current_extensions 4)).map Prod.fst).Perm
      ((["b.TIF", "a.png", "notes.txt", "sub", "C.tiff", ".tif"]).filter (fun fn =>
        fs_demo.isfile (path_join "/imgs" fn) &&
          (get_current_extensions 4).contains (py_lower (splitext_ext fn)))) ∧
    List.Sorted lower_rel
      ((refresh_file_list fs_demo "/imgs" (get_current_extensions 4)).map Prod.fst) :=
  refresh_shows_filtered_sorted fs_demo "/imgs" 4
    ["b.TIF", "a.png", "notes.txt", "sub", "C.tiff", ".tif"] (by decide) (by decide)

/-- A list whose items are all unchecked has selection count 0. -/
theorem get_selected_count_of_all_false (l : List (String × Bool))
    (h : ∀ p ∈ l, p.2 = false) : get_selected_count l = 0 := by
  induction l with
  | nil => rfl
  | cons p rest ih =>
    have hp := h p (List.mem_cons_self p rest)
    simp [get_selected_count, hp, ih (fun q hq => h q (List.mem_cons_of_mem p hq))]

/-- A list whose items are all unchecked yields an empty selection. -/
theorem get_selected_files_of_all_false (dir : String) (l : List (String × Bool))
    (h : ∀ p ∈ l, p.2 = false) : get_selected_files dir l = [] := by
  induction l with
  | nil => rfl
  | cons p rest ih =>
    have hp := h p (List.mem_cons_self p rest)
    simp [get_selected_files, hp, ih (fun q hq => h q (List.mem_cons_of_mem p hq))]

/-- Every item produced by `_refresh_file_list` is unchecked. -/
theorem refresh_all_unchecked (fs : FSys) (dir : String) (exts : List String) :
    ∀ p ∈ refresh_file_list fs dir exts, p.2 = false := by
  intro p hp
  unfold refresh_file_list at hp
  by_cases hd : fs.isdir dir = true
  · rw [if_pos hd] at hp
    cases hl : fs.listdir dir with
    | none => rw [hl] at hp; simp at hp
    | some entries =>
      rw [hl] at hp
      rcases List.mem_map.mp hp with ⟨a, _, rfl⟩
      rfl
  · rw [if_neg hd] at hp
    simp at hp

/-- C4: from any checkbox configuration, Select All checks every item
uniformly, and the subsequent Clear All unchecks every item uniformly,
drives the recomputed selection count to 0 and makes the emitted selection
list empty. -/
theorem select_all_then_clear_all (st : TabState) :
    (∀ p ∈ (on_select_all st).1.items, p.2 = true) ∧
    (on_select_all st).2.1 = get_selected_count (on_select_all st).1.items ∧
    (∀ p ∈ (on_clear_all (on_select_all st).1).1.items, p.2 = false) ∧
    (on_clear_all (on_select_all st).1).2.1 = 0 ∧
    (on_clear_all (on_select_all st).1).2.2 = [] := by
  refine ⟨?_, rfl, ?_, ?_, ?_⟩
  · intro p hp
    rcases List.mem_map.mp hp with ⟨a, _, rfl⟩
    rfl
  · intro p hp
    rcases List.mem_map.mp hp with ⟨a, _, rfl⟩
    rfl
  · exact get_selected_count_of_all_false _ (fun p hp => by
      rcases List.mem_map.mp hp with ⟨a, _, rfl⟩; rfl)
  · exact get_selected_files_of_all_false _ _ (fun p hp => by
      rcases List.mem_map.mp hp with ⟨a, _, rfl⟩; rfl)

/-- C5: `get_selected_files` returns exactly the current directory joined
with the name of each checked item, in display order, and both a checkbox
change (`_on_item_changed`) and `_emit_selection_changed` emit exactly this
list on the `files_selected` signal. -/
theorem get_selected_files_spec (dir : String) (items : List (String × Bool)) :
    get_selected_files dir items =
      (items.filter (fun p => p.2)).map (fun p => path_join dir p.1) ∧
    emit_selection_changed dir items = get_selected_files dir items ∧
    (∀ index : Int, (on_item_changed ⟨dir, index, items⟩).2 =
      get_selected_files dir items) := by
  refine ⟨?_, rfl, fun _ => rfl⟩
  induction items with
  | nil => rfl
  | cons p rest ih =>
    cases hb : p.2 <;> simp [get_selected_files, hb, ih]

/-- C6: changing the format filter (and likewise picking a new directory)
rebuilds the list with every item unchecked, so the selection count is 0
and the selection is empty after the rebuild. -/
theorem format_change_resets_selection (fs : FSys) (st : TabState) (index : Int) :
    (∀ p ∈ (on_format_changed fs st index).items, p.2 = false) ∧
    get_selected_count (on_format_changed fs st index).items = 0 ∧
    get_selected_files (on_format_changed fs st index).current_directory
      (on_format_changed fs st index).items = [] ∧
    (∀ dir : String, dir ≠ "" →
      (∀ p ∈ (on_browse_selected fs st dir).items, p.2 = false) ∧
      get_selected_count (on_browse_selected fs st dir).items = 0) := by
  refine ⟨refresh_all_unchecked _ _ _,
    get_selected_count_of_all_false _ (refresh_all_unchecked _ _ _),
    get_selected_files_of_all_false _ _ (refresh_all_unchecked _ _ _),
    fun dir hdir => ?_⟩
  have hb : on_browse_selected fs st dir =
      { st with current_directory := dir
                items := refresh_file_list fs dir
                  (get_current_extensions st.format_index) } := by
    simp [on_browse_selected, hdir]
  rw [hb]
  exact ⟨refresh_all_unchecked _ _ _,
    get_selected_count_of_all_false _ (refresh_all_unchecked _ _ _)⟩

/-- Witness for C6 at a concrete non-empty directory choice. -/
theorem format_change_resets_selection_witness :
    (∀ p ∈ (on_browse_selected fs_demo ⟨"/x", 4, [("a.png", true)]⟩ "/imgs").items,
      p.2 = false) ∧
    get_selected_count
      (on_browse_selected fs_demo ⟨"/x", 4, [("a.png", true)]⟩ "/imgs").items = 0 :=
  (format_change_resets_selection fs_demo ⟨"/x", 4, [("a.png", true)]⟩ 4).2.2.2
    "/imgs" (by decide)

/-- C8: an invalid or inaccessible current directory yields an empty file
list, and a `PermissionError` raised while enumerating the directory is
caught, leaving the (empty) listing; no error propagates (the model is a
total function). -/
theorem refresh_error_handling (fs : FSys) (dir : String) (exts : List String) :
    (fs.isdir dir = false → refresh_file_list fs dir exts = []) ∧
    (fs.listdir dir = none → refresh_file_list fs dir exts = []) := by
  constructor
  · intro h
    simp [refresh_file_list, h]
  · intro h
    unfold refresh_file_list
    by_cases hd : fs.isdir dir = true
    · rw [if_pos hd, h]
    · rw [if_neg hd]

/-- Witness for C8: a missing directory and a permission-denied directory
both produce the empty list. -/
theorem refresh_error_handling_witness :
    refresh_file_list fs_demo "/nope" (get_current_extensions 4) = [] ∧
    refresh_file_list fs_locked "/locked" (get_current_extensions 4) = [] :=
  ⟨(refresh_error_handling fs_demo "/nope" (get_current_extensions 4)).1 (by decide),
   (refresh_error_handling fs_locked "/locked" (get_current_extensions 4)).2 rfl⟩

/-- C2: loading the settings store never raises (the model is a total
function); a missing file and a malformed (undecodable or unreadable) file
both yield the empty mapping, and every subsequent `get(key, default)` on
that mapping returns the provided default. -/
theorem load_failure_yields_empty :
    load_settings .missing = [] ∧ load_settings .malformed = [] ∧
    (∀ k d : String, settings_get (load_settings .missing) k d = d) ∧
    (∀ k d : String, settings_get (load_settings .malformed) k d = d) :=
  ⟨rfl, rfl, fun _ _ => rfl, fun _ _ => rfl⟩

/-- C3: when a `last_directory` value is stored, `get_last_directory`
returns it exactly when it is non-empty and currently a directory, and
returns the project root otherwise; when the stored value differs from the
project root the two cases are an equivalence. -/
theorem get_last_directory_spec (fs : FSys) (root : String) (m : SettingsMap)
    (s : String) (h : List.lookup "last_directory" m = some s) :
    ((s ≠ "" ∧ fs.isdir s = true) → get_last_directory fs root m = s) ∧
    (¬(s ≠ "" ∧ fs.isdir s = true) → get_last_directory fs root m = root) ∧
    (s ≠ root →
      (get_last_directory fs root m = s ↔ (s ≠ "" ∧ fs.isdir s = true))) := by
  have hcases :
      ((s ≠ "" ∧ fs.isdir s = true) → get_last_directory fs root m = s) ∧
      (¬(s ≠ "" ∧ fs.isdir s = true) → get_last_directory fs root m = root) := by
    unfold get_last_directory
    rw [h]
    constructor
    · rintro ⟨h1, h2⟩
      simp [h1, h2]
    · intro hn
      rcases Decidable.em (s = "") with he | he
      · simp [he]
      · have h2 : fs.isdir s = false := by
          cases hb : fs.isdir s
          · rfl
          · exact absurd ⟨he, hb⟩ hn
        simp [he, h2]
  refine ⟨hcases.1, hcases.2, fun hroot => ⟨fun heq => ?_, hcases.1⟩⟩
  by_contra hn
  exact hroot ((hcases.2 hn ▸ heq).symm ▸ rfl)

/-- Witness for C3: a stored directory that exists is returned; a stored
directory that is gone falls back to the project root. -/
theorem get_last_directory_spec_witness :
    get_last_directory fs_demo "/app" [("last_directory", "/imgs")] = "/imgs" ∧
    get_last_directory fs_demo "/app" [("last_directory", "/gone")] = "/app" :=
  ⟨(get_last_directory_spec fs_demo "/app" [("last_directory", "/imgs")] "/imgs"
      (by decide)).1 ⟨by decide, by decide⟩,
   (get_last_directory_spec fs_demo "/app" [("last_directory", "/gone")] "/gone"
      (by decide)).2.1 (by decide)⟩

/-- Mapping update makes the new value the one found under its key. -/
theorem lookup_dict_set (m : SettingsMap) (k v : String) :
    List.lookup k (dict_set m k v) = some v := by
  induction m with
  | nil => simp [dict_set, List.lookup]
  | cons p rest ih =>
    obtain ⟨k', v'⟩ := p
    by_cases h : k' = k
    · simp [dict_set, h, List.lookup]
    · have h2 : (k == k') = false := by
        simp [Ne.symm h]
      simp [dict_set, h, List.lookup, h2, ih]

/-- C7: `set(key, value)` immediately attempts to write the whole mapping
to the settings file; when the write succeeds the file holds the new
mapping and nothing is printed, when it raises `IOError` a warning is
printed, the call still returns, the file is untouched, and in both cases
the new value is what every later `get(key, default)` sees. -/
theorem set_persists_and_is_nonfatal (d : Disk) (m : SettingsMap) (k v : String) :
    (∀ dflt : String, settings_get (settings_set d m k v).1 k dflt = v) ∧
    (d.write_fails = false →
      (settings_set d m k v).2.1.content = some (dict_set m k v) ∧
      (settings_set d m k v).2.2 = []) ∧
    (d.write_fails = true →
      (settings_set d m k v).2.1 = d ∧
      (settings_set d m k v).2.2 = ["Warning: Could not save settings"]) := by
  refine ⟨fun dflt => ?_, fun h => ?_, fun h => ?_⟩
  · simp [settings_set, settings_get, lookup_dict_set]
  · simp [settings_set, save_settings, h]
  · simp [settings_set, save_settings, h]

/-- Witness for C7: a failing save warns yet the value is readable, a
succeeding save writes the whole mapping. -/
theorem set_persists_and_is_nonfatal_witness :
    settings_get (settings_set ⟨none, true⟩ [] "last_directory" "/imgs").1
      "last_directory" "x" = "/imgs" ∧
    (settings_set ⟨none, true⟩ [] "last_directory" "/imgs").2.2 =
      ["Warning: Could not save settings"] ∧
    (settings_set ⟨some [], false⟩ [] "last_directory" "/imgs").2.1.content =
      some [("last_directory", "/imgs")] :=
  ⟨(set_persists_and_is_nonfatal ⟨none, true⟩ [] "last_directory" "/imgs").1 "x",
   ((set_persists_and_is_nonfatal ⟨none, true⟩ [] "last_directory" "/imgs").2.2 rfl).2,
   ((set_persists_and_is_nonfatal ⟨some [], false⟩ [] "last_directory" "/imgs").2.1
      rfl).1⟩

/-- C9: `Settings()` is a per-process singleton: once `_instance` exists,
any further construction returns it unchanged, regardless of what the
settings file holds at that moment (no re-read, no change to the mapping);
in particular two successive constructions compose to the first. -/
theorem settings_ctor_idempotent (f1 f2 : SettingsFileState) (p : SettingsClass)
    (m : SettingsMap) :
    (p.inst = some m → Settings_ctor f2 p = (p, m)) ∧
    Settings_ctor f2 (Settings_ctor f1 ⟨none⟩).1 = Settings_ctor f1 ⟨none⟩ := by
  constructor
  · intro h
    simp [Settings_ctor, h]
  · simp [Settings_ctor]

/-- Witness for C9: re-construction with a different (even malformed) file
state returns the existing instance untouched. -/
theorem settings_ctor_idempotent_witness :
    Settings_ctor .malformed { inst := some [("a", "1")] } =
      ({ inst := some [("a", "1")] }, [("a", "1")]) :=
  (settings_ctor_idempotent .missing .malformed { inst := some [("a", "1")] }
    [("a", "1")]).1 rfl

/-- C10: a click on a `NavButton` emits `workspace_selected` with that
button's workspace id exactly when the button is inactive at click time; a
click on an active button emits nothing. -/
theorem nav_click_emits_iff_inactive (b : NavButton) :
    (b.active = false → nav_on_clicked b = [b.workspace_id]) ∧
    (b.active = true → nav_on_clicked b = []) ∧
    nav_on_clicked (nav_set_active b true) = [] ∧
    nav_on_clicked (nav_set_active b false) = [b.workspace_id] := by
  refine ⟨fun h => ?_, fun h => ?_, ?_, ?_⟩ <;>
    simp_all [nav_on_clicked, nav_set_active]

/-- Witness for C10: an inactive button emits its workspace id, an active
one emits nothing. -/
theorem nav_click_emits_iff_inactive_witness :
    nav_on_clicked { workspace_id := "input", active := false } = ["input"] ∧
    nav_on_clicked { workspace_id := "input", active := true } = [] :=
  ⟨(nav_click_emits_iff_inactive { workspace_id := "input", active := false }).1 rfl,
   (nav_click_emits_iff_inactive { workspace_id := "input", active := true }).2.1 rfl⟩
